import Mathlib

/-!
Shallow embedding of the BMS log analyzer (`src/LOGS_READ.py`).

The embedding covers `parse_log_file` (header classification, metadata
harvesting, CSV parsing via `pd.read_csv` defaults, column-name stripping,
`pd.to_datetime(errors='coerce')` plus `sort_values`), the safety-flag
detector loop, the power computation `df['Power_W']`, and — modelled from
the spec, since the repository contains no such code — the `elapsed_minutes`
derivation.

String primitives are re-implemented over `List Char` by structural
recursion so that every definition is executable by the kernel; they mirror
the Python operations used by the source (`str.strip`, `str.startswith`,
substring membership, `str.split`).
-/

namespace BMS

/-- Whitespace trim of a character list from both ends: models Python
`str.strip()` for the whitespace characters occurring in these logs. -/
def trimList (cs : List Char) : List Char :=
  ((cs.dropWhile Char.isWhitespace).reverse.dropWhile Char.isWhitespace).reverse

/-- Models Python `line.strip()`. -/
def pyStrip (s : String) : String := ⟨trimList s.data⟩

/-- Models Python `s.startswith(pre)`. -/
def strStartsWith (s pre : String) : Bool := pre.data.isPrefixOf s.data

/-- Substring occurrence on character lists. -/
def hasSubstr (pat : List Char) : List Char → Bool
  | [] => pat.isEmpty
  | c :: rest => pat.isPrefixOf (c :: rest) || hasSubstr pat rest

/-- Models Python `pat in s` (substring membership). -/
def containsStr (s pat : String) : Bool := hasSubstr pat.data s.data

/-- Splits a character list at the first occurrence of `sep`; `none` when
`sep` does not occur. Models Python `s.split(sep, 1)` (which yields two
parts exactly when `sep` occurs). -/
def breakAtChar (sep : Char) : List Char → Option (List Char × List Char)
  | [] => none
  | c :: cs =>
    if c = sep then some ([], cs)
    else (breakAtChar sep cs).map (fun p => (c :: p.1, p.2))

/-- Splits a character list on every occurrence of `sep`; auxiliary
accumulator holds the current field reversed. -/
def splitCharAux (sep : Char) : List Char → List Char → List (List Char)
  | [], acc => [acc.reverse]
  | c :: cs, acc =>
    if c = sep then acc.reverse :: splitCharAux sep cs []
    else splitCharAux sep cs (c :: acc)

/-- Models the comma split performed on each CSV line by `pd.read_csv`. -/
def splitComma (s : String) : List String :=
  (splitCharAux ',' s.data []).map (fun cs => ⟨cs⟩)

/-- Data-log signature check from `parse_log_file`:
`line.strip().startswith("Sample,DateTime")`. -/
def matchesData (l : String) : Bool :=
  strStartsWith (pyStrip l) "Sample,DateTime"

/-- Error-log signature check from `parse_log_file`:
`"Error Code,Error String" in line or "Time,LogCaption,Error Code" in line`
on the stripped line. -/
def matchesError (l : String) : Bool :=
  containsStr (pyStrip l) "Error Code,Error String" ||
  containsStr (pyStrip l) "Time,LogCaption,Error Code"

/-- A line matches some header signature. -/
def matchesAny (l : String) : Bool := matchesData l || matchesError l

/-- Models Python `'=' in line` on the stripped line. -/
def hasEq (l : String) : Bool := (breakAtChar '=' (pyStrip l).data).isSome

/-- The metadata key of a `key=value` line: left of the first `=`, stripped.
Models `line.split('=', 1)[0].strip()`. -/
def metaKey (l : String) : String :=
  match breakAtChar '=' (pyStrip l).data with
  | some p => pyStrip ⟨p.1⟩
  | none => pyStrip l

/-- The metadata value of a `key=value` line: right of the first `=`,
stripped. Models `line.split('=', 1)[1].strip()`. -/
def metaVal (l : String) : String :=
  match breakAtChar '=' (pyStrip l).data with
  | some p => pyStrip ⟨p.2⟩
  | none => ""

/-- Python dict assignment `metadata[k] = v`: replaces the value of an
existing key in place, otherwise appends the new binding. -/
def dictInsert (m : List (String × String)) (k v : String) :
    List (String × String) :=
  if m.any (fun p => p.1 == k) then
    m.map (fun p => if p.1 == k then (k, v) else p)
  else m ++ [(k, v)]

/-- Dict lookup on the association-list model of a Python dict. -/
def dictGet (m : List (String × String)) (k : String) : Option String :=
  (m.find? (fun p => p.1 == k)).map (fun p => p.2)

/-- Result of the header-classification scan: the `file_type` string, the
`header_index`, and the harvested `metadata` dict. -/
structure ScanResult where
  fileType : String
  headerIndex : Nat
  metadata : List (String × String)
deriving DecidableEq, Repr

/-- The classification loop of `parse_log_file` over the (at most 50)
scanned lines: data signature first, then error signatures, else metadata
harvesting for lines containing `=`. `i` is the running line index, `m` the
metadata accumulated so far. -/
def scanAux : List String → Nat → List (String × String) → ScanResult
  | [], _, m => ⟨"unknown", 0, m⟩
  | l :: ls, i, m =>
    if matchesData l then ⟨"data", i, m⟩
    else if matchesError l then ⟨"error", i, m⟩
    else if hasEq l then scanAux ls (i + 1) (dictInsert m (metaKey l) (metaVal l))
    else scanAux ls (i + 1) m

/-- The header scan of `parse_log_file`: `for i, line in enumerate(content[:50])`. -/
def scanHead (content : List String) : ScanResult :=
  scanAux (content.take 50) 0 []

/-- A cell of the parsed table: missing (NaN/NaT), raw text, or a parsed
timestamp (an abstract instant, totally ordered). -/
inductive Cell where
  | missing : Cell
  | text : String → Cell
  | time : Int → Cell
deriving DecidableEq, Repr

/-- The parsed table: named columns and rows of equal width. Models the
pandas DataFrame produced by `pd.read_csv`. -/
structure DataFrame where
  cols : List String
  rows : List (List Cell)
deriving DecidableEq, Repr

/-- A raw CSV field as a cell: the empty field becomes NaN (missing),
anything else is kept verbatim (the C parser does not trim cells). -/
def cellOfField (s : String) : Cell :=
  if s = "" then Cell.missing else Cell.text s

/-- A data row padded to `n` fields: rows with fewer fields than expected
are padded with NaN at the end, as `pd.read_csv` does. -/
def padRow (n : Nat) (fields : List String) : List Cell :=
  fields.map cellOfField ++ List.replicate (n - fields.length) Cell.missing

/-- Row parsing of `pd.read_csv`: a row with more fields than the expected
width `n` raises `ParserError` (aborting the read), a row with fewer is
padded with missing values. -/
def parseRows (n : Nat) : List String → Except String (List (List Cell))
  | [] => Except.ok []
  | l :: ls =>
    let fields := splitComma l
    if n < fields.length then
      Except.error "ParserError: too many fields"
    else
      match parseRows n ls with
      | Except.error e => Except.error e
      | Except.ok rest => Except.ok (padRow n fields :: rest)

/-- Auxiliary for duplicate-name mangling: `seen` lists the raw names
already processed. -/
def mangleAux (seen : List String) : List String → List String
  | [] => []
  | n :: rest =>
    let k := seen.count n
    (if k = 0 then n else n ++ "." ++ toString k) :: mangleAux (seen ++ [n]) rest

/-- Models `pd.read_csv`'s renaming of duplicate header names: the second
and later occurrences of a name receive `.1`, `.2`, ... suffixes. -/
def mangleDupes (names : List String) : List String := mangleAux [] names

/-- Parsing of the non-blank data lines `ds` against the mangled header
`names`: the expected row width is set by the first data row — a first
data row wider than the header makes its leading extra fields an implicit
index (dropped here, since the source never reads the index), a row wider
than expected raises `ParserError`, and a narrower row is padded with
missing values. -/
def readCsvBody (names : List String) (ds : List String) : Except String DataFrame :=
  match ds with
  | [] => Except.ok ⟨names, []⟩
  | first :: _ =>
    let w := (splitComma first).length
    if names.length < w then
      match parseRows w ds with
      | Except.error e => Except.error e
      | Except.ok rs => Except.ok ⟨names, rs.map (fun r => r.drop (w - names.length))⟩
    else
      match parseRows names.length ds with
      | Except.error e => Except.error e
      | Except.ok rs => Except.ok ⟨names, rs⟩

/-- Models `pd.read_csv(io.StringIO(raw_data))` on the joined lines, for
the unquoted comma-separated input of these logs with default options:
the first line names the columns (duplicates mangled with `.N` suffixes),
blank lines are skipped, and the rows are parsed by `readCsvBody`. An
input with no lines at all raises `EmptyDataError`. -/
def readCsv (lines : List String) : Except String DataFrame :=
  match lines with
  | [] => Except.error "EmptyDataError: no columns to parse from file"
  | header :: rest =>
    readCsvBody (mangleDupes (splitComma header)) (rest.filter (fun l => !(l == "")))

/-- Time-column selection of `parse_log_file`: `DateTime` if present, else
`Time`, else none. -/
def timeColName (cols : List String) : Option String :=
  if cols.contains "DateTime" then some "DateTime"
  else if cols.contains "Time" then some "Time"
  else none

/-- Per-cell `pd.to_datetime(..., errors='coerce')`: a text cell parses via
the timestamp parser `pt` (an oracle abstracting pandas' format inference),
an unparseable or missing cell becomes NaT. -/
def convertCell (pt : String → Option Int) : Cell → Cell
  | Cell.text s =>
    match pt s with
    | some t => Cell.time t
    | none => Cell.missing
  | Cell.missing => Cell.missing
  | Cell.time t => Cell.time t

/-- The sort key of a converted time cell: `none` is NaT. -/
def cellTimeKey : Cell → Option Int
  | Cell.time t => some t
  | _ => none

/-- The sort key of a row, read from the time column at index `idx`. -/
def rowKey (idx : Nat) (r : List Cell) : Option Int :=
  cellTimeKey (r.getD idx Cell.missing)

/-- Insertion of a row into an ascending run, after all rows whose key is
not greater. -/
def insertSorted (key : List Cell → Int) (r : List Cell) :
    List (List Cell) → List (List Cell)
  | [] => [r]
  | x :: xs => if key x ≤ key r then x :: insertSorted key r xs else r :: x :: xs

/-- Ascending sort of rows by key. -/
def sortOn (key : List Cell → Int) (rs : List (List Cell)) : List (List Cell) :=
  rs.foldl (fun acc r => insertSorted key r acc) []

/-- Models `df[time_col] = pd.to_datetime(df[time_col], errors='coerce')`
followed by `df.sort_values(by=time_col)`: the time column is converted
cell-wise, rows with a valid timestamp are sorted ascending, and NaT rows
are appended in their original order (`na_position='last'`). The source's
default quicksort leaves the relative order of rows with equal timestamps
unspecified; it is modelled by an insertion sort, and no theorem below
depends on the order of such ties. -/
def sortRows (pt : String → Option Int) (idx : Nat) (rows : List (List Cell)) :
    List (List Cell) :=
  let conv := rows.map (fun r => r.set idx (convertCell pt (r.getD idx Cell.missing)))
  let valid := conv.filter (fun r => (rowKey idx r).isSome)
  let miss := conv.filter (fun r => !(rowKey idx r).isSome)
  sortOn (fun r => (rowKey idx r).getD 0) valid ++ miss

/-- The observable result of `parse_log_file`: the returned triple
`(file_type, metadata, df)` plus the Streamlit messages emitted inside the
function (`st.error` on the exception path; nothing else is emitted). -/
structure PLFResult where
  fileType : String
  metadata : List (String × String)
  df : Option DataFrame
  messages : List String
deriving DecidableEq, Repr

/-- The whole of `parse_log_file`, parameterized by the per-cell timestamp
parser `pt` abstracting `pd.to_datetime`. Unknown files return
`("unknown", {}, None)`; any exception inside the parsing block —
`ParserError` from `read_csv`, or `to_datetime` applied to the DataFrame
selected by a duplicated time-column label — is caught and reported as
`("error_parsing", {}, None)` after an `st.error` message. -/
def parseLogFile (pt : String → Option Int) (content : List String) : PLFResult :=
  if (scanHead content).fileType = "unknown" then ⟨"unknown", [], none, []⟩
  else
    match readCsv (content.drop (scanHead content).headerIndex) with
    | Except.error _ => ⟨"error_parsing", [], none, ["st.error: parse exception"]⟩
    | Except.ok df0 =>
      match timeColName (df0.cols.map pyStrip) with
      | none =>
        ⟨(scanHead content).fileType, (scanHead content).metadata,
          some ⟨df0.cols.map pyStrip, df0.rows⟩, []⟩
      | some tc =>
        if 2 ≤ (df0.cols.map pyStrip).count tc then
          ⟨"error_parsing", [], none, ["st.error: parse exception"]⟩
        else
          ⟨(scanHead content).fileType, (scanHead content).metadata,
            some ⟨df0.cols.map pyStrip,
              sortRows pt ((df0.cols.map pyStrip).findIdx (fun c => c == tc)) df0.rows⟩,
            []⟩

/-- The stripped column names a successful parse of `content` carries:
whatever `read_csv` produced, each name stripped. -/
def headerCols (content : List String) : List String :=
  match readCsv (content.drop (scanHead content).headerIndex) with
  | Except.ok d => d.cols.map pyStrip
  | Except.error _ => []

/-- A timestamp parser that parses nothing; usable wherever the outcome is
independent of the oracle. -/
def noTs : String → Option Int := fun _ => none

/-- The hardcoded zero-alias list of the flag detector
(`['0', '0x0', '0x00', '0x0000', '0000', '00']`). -/
def zeroAliases : List String := ["0", "0x0", "0x00", "0x0000", "0000", "00"]

/-- Python `str(v)` for a cell of an object column: a string is itself,
the missing value prints as `nan`. -/
def cellStr : Option String → String
  | some s => s
  | none => "nan"

/-- The object-dtype branch of the flag loop: active iff some value's
string form is not in the zero-alias list. The source compares `str(v)`
verbatim — no stripping — against the list; iterating unique values is
equivalent to iterating all values for this existence check. -/
def flagActiveObj (vals : List (Option String)) : Bool :=
  vals.any (fun v => !(zeroAliases.contains (cellStr v)))

/-- Elementwise `!= 0` of the numeric branch: pandas evaluates `NaN != 0`
as true. -/
def neZeroCell : Option ℚ → Bool
  | some q => decide (q ≠ 0)
  | none => true

/-- The numeric-dtype branch of the flag loop: `(df[col] != 0).any()`. -/
def flagActiveNum (vals : List (Option ℚ)) : Bool :=
  vals.any neZeroCell

/-- Candidate flag columns: `'Stat' in c or 'Alert' in c`. -/
def isFlagCol (c : String) : Bool :=
  containsStr c "Stat" || containsStr c "Alert"

/-- Modelled from the spec: the repository's source (`src/LOGS_READ.py`)
contains no time-normalization code — `elapsed_minutes` never appears in
it — so this definition follows §4.4 of the spec: with the first row's
timestamp as the epoch, `elapsed_minutes[i] = (timestamp[i] − timestamp[0])`
in minutes; when the epoch is the missing marker every derived value is
missing. Timestamps are rationals in seconds, `none` being missing. -/
def elapsedMinutes (ts : List (Option ℚ)) : List (Option ℚ) :=
  match ts with
  | [] => []
  | t0 :: _ =>
    ts.map (fun t =>
      match t0, t with
      | some a, some b => some ((b - a) / 60)
      | _, _ => none)

/-- A table of numeric columns (NaN as `none`), the shape on which the
power computation of the source operates. -/
abbrev NumFrame : Type := List (String × List (Option ℚ))

/-- Column selection `df[name]` on a numeric frame; `none` models the
`KeyError` pandas raises for a missing label. -/
def getNumCol (d : NumFrame) (name : String) : Option (List (Option ℚ)) :=
  (d.find? (fun p => p.1 == name)).map (fun p => p.2)

/-- Column assignment `df[name] = xs`: replaces an existing column of that
name, otherwise appends it. -/
def setNumCol (d : NumFrame) (name : String) (xs : List (Option ℚ)) : NumFrame :=
  if d.any (fun p => p.1 == name) then
    d.map (fun p => if p.1 == name then (name, xs) else p)
  else d ++ [(name, xs)]

/-- The elementwise power series `(df['Voltage']/1000) * (df['Current']/1000)`;
an operand that is NaN makes the result NaN. -/
def powerSeries (vs cs : List (Option ℚ)) : List (Option ℚ) :=
  List.zipWith
    (fun v c =>
      match v, c with
      | some v, some c => some ((v / 1000) * (c / 1000))
      | _, _ => none)
    vs cs

/-- Line 222 of the source, `df['Power_W'] = (df['Voltage']/1000) * (df['Current']/1000)`:
evaluating `df['Voltage']` (then `df['Current']`) raises `KeyError` when
the column is absent — the statement is not guarded — otherwise the
`Power_W` column is assigned. -/
def addPowerW (d : NumFrame) : Except String NumFrame :=
  match getNumCol d "Voltage" with
  | none => Except.error "KeyError: Voltage"
  | some vs =>
    match getNumCol d "Current" with
    | none => Except.error "KeyError: Current"
    | some cs => Except.ok (setNumCol d "Power_W" (powerSeries vs cs))

/-! Helper lemmas. -/

theorem breakAtChar_isSome (sep : Char) (cs : List Char) :
    (breakAtChar sep cs).isSome = true ↔ sep ∈ cs := by
  induction cs with
  | nil => simp [breakAtChar]
  | cons c rest ih =>
    by_cases h : c = sep
    · subst h; simp [breakAtChar]
    · have h' : ¬ (sep = c) := fun hs => h hs.symm
      simp only [breakAtChar, if_neg h, List.mem_cons]
      cases hb : breakAtChar sep rest with
      | none =>
        rw [hb] at ih
        simp at ih
        simp [ih, h']
      | some p =>
        rw [hb] at ih
        simp at ih
        simp [ih]

theorem mangleAux_length (ls : List String) : ∀ seen, (mangleAux seen ls).length = ls.length := by
  induction ls with
  | nil => intro seen; rfl
  | cons n rest ih => intro seen; simp [mangleAux, ih]

theorem mangleDupes_length (ls : List String) : (mangleDupes ls).length = ls.length :=
  mangleAux_length ls []

theorem parseRows_ok (n : Nat) (ls : List String)
    (h : ∀ l ∈ ls, (splitComma l).length ≤ n) :
    parseRows n ls = Except.ok (ls.map (fun l => padRow n (splitComma l))) := by
  induction ls with
  | nil => rfl
  | cons l rest ih =>
    have h1 : ¬ n < (splitComma l).length := by
      have := h l (List.mem_cons_self l rest)
      omega
    have h2 := ih (fun x hx => h x (List.mem_cons_of_mem l hx))
    simp [parseRows, h1, h2]

theorem readCsvBody_ok (names : List String) (ds : List String)
    (h : ∀ l ∈ ds, (splitComma l).length ≤ names.length) :
    readCsvBody names ds = Except.ok ⟨names, ds.map (fun l => padRow names.length (splitComma l))⟩ := by
  cases ds with
  | nil => rfl
  | cons first rest =>
    have hw : ¬ names.length < (splitComma first).length := by
      have := h first (List.mem_cons_self first rest)
      omega
    simp [readCsvBody, hw, parseRows_ok _ _ h]

theorem filter_nonblank (ls : List String) (h : ∀ l ∈ ls, l ≠ "") :
    ls.filter (fun l => !(l == "")) = ls := by
  induction ls with
  | nil => rfl
  | cons l rest ih =>
    have h1 : (l == "") = false := beq_eq_false_iff_ne.mpr (h l (List.mem_cons_self l rest))
    simp [List.filter_cons, h1, ih (fun x hx => h x (List.mem_cons_of_mem l hx))]

theorem getElem?_zipWith_some {α β γ : Type} (f : α → β → γ) (vs : List α) (cs : List β)
    (i : Nat) (v : α) (c : β) (hv : vs[i]? = some v) (hc : cs[i]? = some c) :
    (List.zipWith f vs cs)[i]? = some (f v c) := by
  induction vs generalizing cs i with
  | nil => simp at hv
  | cons x xs ih =>
    cases cs with
    | nil => simp at hc
    | cons y ys =>
      cases i with
      | zero =>
        simp at hv hc
        simp [hv, hc]
      | succ j =>
        simp at hv hc
        simpa using ih ys j hv hc

theorem scanAux_unknown_iff (ls : List String) :
    ∀ i m, ((scanAux ls i m).fileType = "unknown" ↔ ∀ l ∈ ls, matchesAny l = false) := by
  induction ls with
  | nil => intro i m; simp [scanAux]
  | cons l rest ih =>
    intro i m
    by_cases hd : matchesData l = true
    · have hany : matchesAny l = true := by simp [matchesAny, hd]
      simp [scanAux, hd, hany]
    · by_cases he : matchesError l = true
      · have hany : matchesAny l = true := by simp [matchesAny, he]
        simp [scanAux, hd, he, hany]
      · have hany : matchesAny l = false := by
          simp [matchesAny, Bool.eq_false_iff.mpr hd, Bool.eq_false_iff.mpr he]
        by_cases hq : hasEq l = true
        · simp [scanAux, hd, he, hq, ih, hany]
        · simp [scanAux, hd, he, Bool.eq_false_iff.mpr hq, ih, hany]

theorem scanAux_found (ls : List String) :
    ∀ i m, ls.any matchesAny = true →
      ∃ k, k < ls.length ∧ (scanAux ls i m).headerIndex = i + k ∧
        matchesAny (ls.getD k "") = true ∧
        (∀ j, j < k → matchesAny (ls.getD j "") = false) ∧
        (scanAux ls i m).fileType =
          (if matchesData (ls.getD k "") then "data" else "error") := by
  induction ls with
  | nil => intro i m h; simp at h
  | cons l rest ih =>
    intro i m h
    by_cases hd : matchesData l = true
    · refine ⟨0, by simp, by simp [scanAux, hd], ?_, ?_, ?_⟩
      · simp [matchesAny, hd]
      · intro j hj; omega
      · simp [scanAux, hd]
    · by_cases he : matchesError l = true
      · refine ⟨0, by simp, by simp [scanAux, hd, he], ?_, ?_, ?_⟩
        · simp [matchesAny, he]
        · intro j hj; omega
        · simp [scanAux, hd, he]
      · have hany : matchesAny l = false := by
          simp [matchesAny, Bool.eq_false_iff.mpr hd, Bool.eq_false_iff.mpr he]
        have hrest : rest.any matchesAny = true := by
          simp [List.any_cons, hany] at h
          simpa using h
        have step : ∀ m', scanAux (l :: rest) i m' = scanAux rest (i + 1)
            (if hasEq l then dictInsert m' (metaKey l) (metaVal l) else m') := by
          intro m'
          by_cases hq : hasEq l = true
          · simp [scanAux, hd, he, hq]
          · simp [scanAux, hd, he, Bool.eq_false_iff.mpr hq]
        obtain ⟨k, hk1, hk2, hk3, hk4, hk5⟩ :=
          ih (i + 1) (if hasEq l then dictInsert m (metaKey l) (metaVal l) else m) hrest
        refine ⟨k + 1, by simpa using Nat.succ_lt_succ hk1, ?_, ?_, ?_, ?_⟩
        · rw [step m, hk2]; omega
        · simpa using hk3
        · intro j hj
          cases j with
          | zero => simpa using hany
          | succ j' => simpa using hk4 j' (by omega)
        · rw [step m]; simpa using hk5

/-! Claim theorems. -/

/-- C1 (amended: the scanned window is the first 50 lines, not 100).
Classification is `unknown` — in which case `parse_log_file` returns the
non-fatal triple with no header index, empty metadata and no table — if
and only if no line within the first 50 lines matches either header
signature; when some line in that window matches, the reported header
index is the zero-based index of the first matching line, and on that
line the data signature takes precedence over the error signatures. -/
theorem C1_thm (content : List String) :
    ((scanHead content).fileType = "unknown" ↔
      ∀ l ∈ content.take 50, matchesAny l = false) ∧
    ((scanHead content).fileType = "unknown" →
      ∀ pt, parseLogFile pt content = ⟨"unknown", [], none, []⟩) ∧
    ((content.take 50).any matchesAny = true →
      (scanHead content).headerIndex < (content.take 50).length ∧
      matchesAny ((content.take 50).getD (scanHead content).headerIndex "") = true ∧
      (∀ j, j < (scanHead content).headerIndex →
        matchesAny ((content.take 50).getD j "") = false) ∧
      (scanHead content).fileType =
        (if matchesData ((content.take 50).getD (scanHead content).headerIndex "")
          then "data" else "error")) := by
  refine ⟨scanAux_unknown_iff (content.take 50) 0 [], ?_, ?_⟩
  · intro h pt
    unfold parseLogFile
    rw [if_pos h]
  · intro h
    obtain ⟨k, hk1, hk2, hk3, hk4, hk5⟩ := scanAux_found (content.take 50) 0 [] h
    have hk : (scanHead content).headerIndex = k := by
      simpa using hk2
    rw [hk]
    exact ⟨hk1, hk3, hk4, hk5⟩

/-- C1 counterexample: a file whose only matching line sits at index 55 —
inside the first 100 lines but beyond the first 50 — is classified
`unknown` by the code, contradicting the claim's 100-line window. -/
theorem C1_counterexample :
    (scanHead (List.replicate 55 "x" ++ ["Sample,DateTime"])).fileType = "unknown" ∧
    ((List.replicate 55 "x" ++ ["Sample,DateTime"]).take 100).any matchesAny = true := by
  constructor
  · decide
  · decide

/-- C1 witness: the amended theorem applied to concrete inputs. -/
theorem C1_witness :
    (scanHead ["meta = 1", "Sample,DateTime,Foo"]).headerIndex <
      ((["meta = 1", "Sample,DateTime,Foo"] : List String).take 50).length ∧
    parseLogFile noTs ["junk"] = ⟨"unknown", [], none, []⟩ :=
  ⟨((C1_thm ["meta = 1", "Sample,DateTime,Foo"]).2.2 (by decide)).1,
    (C1_thm ["junk"]).2.1 (by decide) noTs⟩

/-- C2 (amended: values of a text column are compared verbatim, without
trimming). A numeric flag column is active iff some value is non-zero; a
text flag column is active iff some value's string form — exactly as
stored, untrimmed — is not in the zero-alias set; the column
`["0x00", "0x00", "0x01"]` is active and `["0000", "00", "0x0"]` is
inactive. -/
theorem C2_thm :
    (∀ vals : List String,
      (flagActiveObj (vals.map some) = true ↔ ∃ v ∈ vals, v ∉ zeroAliases)) ∧
    (∀ vals : List ℚ,
      (flagActiveNum (vals.map some) = true ↔ ∃ v ∈ vals, v ≠ 0)) ∧
    flagActiveObj (["0x00", "0x00", "0x01"].map some) = true ∧
    flagActiveObj (["0000", "00", "0x0"].map some) = false := by
  refine ⟨?_, ?_, by decide, by decide⟩
  · intro vals
    simp [flagActiveObj, List.any_map, List.any_eq_true, cellStr, Function.comp]
  · intro vals
    simp [flagActiveNum, List.any_map, List.any_eq_true, neZeroCell, Function.comp]

/-- C2 counterexample: the value `" 0x00"` (leading space) trims to a
member of the zero-alias set, so the claim calls the column inactive; the
code compares without trimming and reports it active. -/
theorem C2_counterexample :
    flagActiveObj [some " 0x00"] = true ∧ pyStrip " 0x00" ∈ zeroAliases := by
  constructor
  · decide
  · decide

/-- C4 (amended: a data row with more fields than the established width
makes `pd.read_csv` raise, which the source catches and turns into the
non-fatal `error_parsing` outcome for the whole file — no table, no
per-row warning; a row with fewer fields is kept, padded with missing
values, so the row count includes it; a file whose tabular section is
empty after the header still yields a table with zero rows). -/
theorem C4_thm :
    (∀ pt, parseLogFile pt ["Sample,DateTime", "1,2", "1,2,3"] =
      ⟨"error_parsing", [], none, ["st.error: parse exception"]⟩) ∧
    (∀ header lines,
      (∀ l ∈ lines, l ≠ "" ∧ (splitComma l).length ≤ (splitComma header).length) →
      readCsv (header :: lines) = Except.ok
        ⟨mangleDupes (splitComma header),
          lines.map (fun l => padRow (splitComma header).length (splitComma l))⟩) ∧
    (∀ header, readCsv [header] = Except.ok ⟨mangleDupes (splitComma header), []⟩) ∧
    (∀ pt, parseLogFile pt ["Sample,DateTime"] =
      ⟨"data", [], some ⟨["Sample", "DateTime"], []⟩, []⟩) := by
  refine ⟨fun pt => rfl, ?_, fun header => rfl, fun pt => rfl⟩
  intro header lines h
  have hlen : (mangleDupes (splitComma header)).length = (splitComma header).length :=
    mangleDupes_length (splitComma header)
  have hfil : lines.filter (fun l => !(l == "")) = lines :=
    filter_nonblank lines (fun l hl => (h l hl).1)
  have hall : ∀ l ∈ lines, (splitComma l).length ≤ (mangleDupes (splitComma header)).length := by
    intro l hl
    rw [hlen]
    exact (h l hl).2
  show readCsvBody (mangleDupes (splitComma header))
      (lines.filter (fun l => !(l == ""))) = _
  rw [hfil, readCsvBody_ok _ _ hall, hlen]

/-- C4 counterexample: with rows `"1,2"` then `"1,2,3"` under the header
`"Sample,DateTime"`, the over-long row is not dropped with a warning —
the whole file fails as `error_parsing` with no table; and a row with too
few fields (`"7"` under a 3-column header) is kept, padded with missing
values, rather than dropped. -/
theorem C4_counterexample :
    parseLogFile noTs ["Sample,DateTime", "1,2", "1,2,3"] =
      ⟨"error_parsing", [], none, ["st.error: parse exception"]⟩ ∧
    (parseLogFile noTs ["Sample,DateTime,Voltage", "7"]).df =
      some ⟨["Sample", "DateTime", "Voltage"],
        [[Cell.text "7", Cell.missing, Cell.missing]]⟩ :=
  ⟨rfl, rfl⟩

/-- C4 witness: the amended theorem applied to a concrete header and a
concrete under-long row. -/
theorem C4_witness :
    readCsv ["A,B", "1"] =
      Except.ok ⟨["A", "B"], [[Cell.text "1", Cell.missing]]⟩ :=
  (C4_thm).2.1 "A,B" ["1"] (by decide)

/-- C5 (confirmed; modelled from the spec, the source has no
`elapsed_minutes` code): the derived column satisfies
`elapsed_minutes[i] = (timestamp[i] − timestamp[0]) / 60` anchored at the
first row; timestamps `[T0, T0+90s, T0+180s]` give `[0.0, 1.5, 3.0]`; and
when the first timestamp is missing every derived value is missing. -/
theorem C5_thm :
    (∀ (ts : List (Option ℚ)) (i : Nat) (t0 ti : ℚ),
      ts[0]? = some (some t0) → ts[i]? = some (some ti) →
      (elapsedMinutes ts)[i]? = some (some ((ti - t0) / 60))) ∧
    (∀ ts : List (Option ℚ), ts[0]? = some none →
      ∀ x ∈ elapsedMinutes ts, x = none) ∧
    (∀ t0 : ℚ, elapsedMinutes [some t0, some (t0 + 90), some (t0 + 180)] =
      [some 0, some (3 / 2), some 3]) := by
  refine ⟨?_, ?_, ?_⟩
  · intro ts i t0 ti h0 hi
    cases ts with
    | nil => simp at h0
    | cons head rest =>
      simp at h0
      subst h0
      simp only [elapsedMinutes, List.getElem?_map, hi, Option.map_some']
  · intro ts h0 x hx
    cases ts with
    | nil => simp [elapsedMinutes] at hx
    | cons head rest =>
      simp at h0
      subst h0
      simp only [elapsedMinutes, List.mem_map] at hx
      obtain ⟨t, _, ht⟩ := hx
      simpa using ht.symm
  · intro t0
    simp only [elapsedMinutes, List.map_cons, List.map_nil]
    norm_num

/-- C5 witness: the theorem applied to concrete timestamps. -/
theorem C5_witness :
    (elapsedMinutes [some 1000, some 1090])[1]? =
      some (some (((1090 : ℚ) - 1000) / 60)) ∧
    elapsedMinutes [(none : Option ℚ), some 7] = [none, none] :=
  ⟨(C5_thm).1 [some 1000, some 1090] 1 1000 1090 rfl rfl,
    by
      have h := (C5_thm).2.1 [(none : Option ℚ), some 7] rfl
      simpa using List.eq_replicate_of_mem h⟩

/-- C6 (amended: when the voltage or current column is absent the power
statement raises `KeyError` — it is not skipped): when both columns are
present the power series is pointwise
`(voltage[i] / 1000) × (current[i] / 1000)`, and when either is absent
`df['Voltage']`/`df['Current']` raise a missing-column error. -/
theorem C6_thm :
    (∀ (d : NumFrame) (vs cs : List (Option ℚ)),
      getNumCol d "Voltage" = some vs → getNumCol d "Current" = some cs →
      addPowerW d = Except.ok (setNumCol d "Power_W" (powerSeries vs cs))) ∧
    (∀ (vs cs : List (Option ℚ)) (i : Nat) (v c : ℚ),
      vs[i]? = some (some v) → cs[i]? = some (some c) →
      (powerSeries vs cs)[i]? = some (some ((v / 1000) * (c / 1000)))) ∧
    (∀ d : NumFrame,
      getNumCol d "Voltage" = none ∨ getNumCol d "Current" = none →
      ∃ e, addPowerW d = Except.error e) := by
  refine ⟨?_, ?_, ?_⟩
  · intro d vs cs hv hc
    unfold addPowerW
    rw [hv, hc]
  · intro vs cs i v c hv hc
    exact getElem?_zipWith_some _ vs cs i (some v) (some c) hv hc
  · intro d h
    unfold addPowerW
    rcases h with h | h
    · rw [h]; exact ⟨_, rfl⟩
    · cases hv : getNumCol d "Voltage" with
      | none => exact ⟨_, rfl⟩
      | some vs => rw [h]; exact ⟨_, rfl⟩

/-- C6 counterexample: a table with a voltage column but no current column
makes the power computation raise `KeyError` — the claim says no power
series is produced and no exception is raised. -/
theorem C6_counterexample :
    addPowerW [("Voltage", [some 3700])] = Except.error "KeyError: Current" ∧
    getNumCol [("Voltage", [some 3700])] "Current" = none :=
  ⟨rfl, rfl⟩

/-- C6 witness: the amended theorem applied to a concrete two-column
table. -/
theorem C6_witness :
    addPowerW [("Voltage", [some 3700]), ("Current", [some 2000])] =
      Except.ok (setNumCol [("Voltage", [some 3700]), ("Current", [some 2000])]
        "Power_W" (powerSeries [some 3700] [some 2000])) ∧
    (powerSeries [some 3700] [some 2000])[0]? =
      some (some (((3700 : ℚ) / 1000) * ((2000 : ℚ) / 1000))) :=
  ⟨(C6_thm).1 [("Voltage", [some 3700]), ("Current", [some 2000])]
      [some 3700] [some 2000] rfl rfl,
    (C6_thm).2.1 [some 3700] [some 2000] 0 3700 2000 rfl rfl⟩

/-- C8 (amended: a line is recorded as metadata iff it contains at least
one `=` — not exactly one): before any classification, a non-matching
line containing an `=` is recorded by splitting at the first `=` and
trimming both sides; a line without `=` is skipped; `hasEq` holds exactly
when the stripped line contains an `=`; `"SerialNumber = ABC123"` yields
the trimmed pair; and the last occurrence of a repeated key wins. -/
theorem C8_thm :
    (∀ l ls i m, matchesAny l = false → hasEq l = true →
      scanAux (l :: ls) i m =
        scanAux ls (i + 1) (dictInsert m (metaKey l) (metaVal l))) ∧
    (∀ l ls i m, matchesAny l = false → hasEq l = false →
      scanAux (l :: ls) i m = scanAux ls (i + 1) m) ∧
    (∀ l, hasEq l = true ↔ '=' ∈ (pyStrip l).data) ∧
    scanHead ["SerialNumber = ABC123", "Sample,DateTime"] =
      ⟨"data", 1, [("SerialNumber", "ABC123")]⟩ ∧
    (scanHead ["k = 1", "k = 2"]).metadata = [("k", "2")] := by
  refine ⟨?_, ?_, ?_, by decide, by decide⟩
  · intro l ls i m hma hq
    have hd : matchesData l = false := by
      simp [matchesAny] at hma
      exact hma.1
    have he : matchesError l = false := by
      simp [matchesAny] at hma
      exact hma.2
    simp [scanAux, hd, he, hq]
  · intro l ls i m hma hq
    have hd : matchesData l = false := by
      simp [matchesAny] at hma
      exact hma.1
    have he : matchesError l = false := by
      simp [matchesAny] at hma
      exact hma.2
    simp [scanAux, hd, he, hq]
  · intro l
    exact breakAtChar_isSome '=' (pyStrip l).data

/-- C8 counterexample: the line `"a=b=c"` contains two `=` separators, so
by the claim it must not be recorded; the code records it, split at the
first `=`. -/
theorem C8_counterexample :
    (scanHead ["a=b=c"]).metadata = [("a", "b=c")] ∧
    "a=b=c".data.count '=' = 2 := by
  constructor
  · decide
  · decide

/-- C8 witness: the amended theorem's recording step applied to a concrete
line. -/
theorem C8_witness :
    scanAux ["x=y"] 0 [] =
      scanAux [] 1 (dictInsert [] (metaKey "x=y") (metaVal "x=y")) :=
  (C8_thm).1 "x=y" [] 0 [] (by decide) (by decide)

/-- C9 (amended: duplicate column names are not surfaced as a warning —
parsing continues silently; names duplicated in the raw header are
renamed with `.N` suffixes by the CSV reader, and names that coincide
only after trimming remain as duplicate columns): every parsed table's
column list is the whitespace-trimmed image of the raw header names. -/
theorem C9_thm :
    (∀ pt content df, (parseLogFile pt content).df = some df →
      df.cols = headerCols content) ∧
    mangleDupes ["A", "A", "A"] = ["A", "A.1", "A.2"] ∧
    (∀ pt, parseLogFile pt ["Sample,DateTime,Volt ,Volt"] =
      ⟨"data", [], some ⟨["Sample", "DateTime", "Volt", "Volt"], []⟩, []⟩) := by
  refine ⟨?_, by decide, fun pt => rfl⟩
  intro pt content df h
  unfold parseLogFile at h
  unfold headerCols
  split at h
  · simp at h
  · split at h
    · simp at h
    · next df0 heq =>
      rw [heq]
      split at h
      · simp at h
        subst h
        rfl
      · split at h
        · simp at h
        · simp at h
          subst h
          rfl

/-- C9 counterexample: a header whose names `"Volt "` and `"Volt"` become
duplicates after trimming parses successfully into a table with two
`Volt` columns, with no warning anywhere in the result — the claim says a
parse warning must be surfaced. -/
theorem C9_counterexample :
    parseLogFile noTs ["Sample,DateTime,Volt ,Volt"] =
      ⟨"data", [], some ⟨["Sample", "DateTime", "Volt", "Volt"], []⟩, []⟩ ∧
    (["Sample", "DateTime", "Volt", "Volt"] : List String).count "Volt" = 2 := by
  constructor
  · rfl
  · decide

/-- C9 witness: the amended theorem applied to a concrete parse. -/
theorem C9_witness :
    (⟨["Sample", "DateTime"], []⟩ : DataFrame).cols =
      headerCols ["Sample,DateTime"] :=
  (C9_thm).1 noTs ["Sample,DateTime"] ⟨["Sample", "DateTime"], []⟩ rfl

/-- C10 (confirmed): whenever the prefix scan classifies a file `unknown`,
`parse_log_file` returns the literal triple `("unknown", {}, None)` — the
metadata harvested before the scan exhausted is discarded, as the
concrete file with a `"SerialNumber = ABC123"` line shows. -/
theorem C10_thm :
    (∀ content, (scanHead content).fileType = "unknown" →
      ∀ pt, parseLogFile pt content = ⟨"unknown", [], none, []⟩) ∧
    (scanHead ["SerialNumber = ABC123", "junk"]).metadata =
      [("SerialNumber", "ABC123")] ∧
    parseLogFile noTs ["SerialNumber = ABC123", "junk"] =
      ⟨"unknown", [], none, []⟩ := by
  refine ⟨?_, by decide, rfl⟩
  intro content h pt
  unfold parseLogFile
  rw [if_pos h]

/-- C10 witness: the theorem applied to a concrete unrecognized file. -/
theorem C10_witness :
    parseLogFile noTs ["a=b"] = ⟨"unknown", [], none, []⟩ :=
  (C10_thm).1 ["a=b"] (by decide) noTs

end BMS
